import Mathlib

/-!
Verification of the question-service matching request/reply protocol.

This file is a shallow embedding of the question-service fragment found in
`src/backend/question-service/model/question-model.js`:

* the document shape stored by the question service (`QuestionDoc`),
* the shared response formatter `formatQuestionResponse`,
* the HTTP random-question endpoint `getRandomQuestion`,
* the Kafka request handler `handleMatchingRequest`, and
* the repository selector `findRandomQuestion` (modelled from the spec,
  since `repository.js` is not among the provided sources).

JavaScript effects are made explicit:

* an absent field of an object is `Option.none`; JS falsiness of a string
  field (`!meta.difficulty`) is `jsFalsyStr`, which is true for both an
  absent field and the empty string;
* the repository promise either resolves with rows (`StoreResult.resolved`,
  whose payload is `none` for a `null`/undefined result or `some rows` for
  an array) or rejects with an exception value (`StoreResult.rejected`);
* `producer.send` outcomes are an oracle `pub : Nat → Bool` giving, per
  handler invocation, whether the n-th publish attempt (0-based) resolves;
* a handler run is summarised by a trace: the repository queries it issued
  (with their arguments), the replies whose publication it attempted, the
  replies actually published (attempts whose send resolved), and whether an
  exception escaped the handler (`Outcome`).
-/

/-- Cloudinary image metadata attached to an example (all fields optional
in the schema). -/
structure Image where
  url : Option String
  provider : Option String
  key : Option String
  width : Option Nat
  height : Option Nat
  mime : Option String
  size : Option Nat
deriving DecidableEq, Repr

/-- An example of the question (`ExampleSchema`): input, output, optional
explanation and optional image. -/
structure Example where
  input : Option String
  output : Option String
  explanation : Option String
  image : Option Image
deriving DecidableEq, Repr

/-- A starter code snippet (`CodeSnippetSchema`). -/
structure CodeSnippet where
  language : String
  code : String
deriving DecidableEq, Repr

/-- A function parameter of the signature (`ParamSchema`). -/
structure Param where
  name : String
  type : String
deriving DecidableEq, Repr

/-- The function signature (`SignatureSchema`). -/
structure Signature where
  params : List Param
  returnType : String
deriving DecidableEq, Repr

/-- A test case (`TestCaseSchema`). The `Mixed` (arbitrary JSON) values of
`args` and `expected` are represented by their serialized JSON text, which
is enough for this development: no claim inspects their structure. -/
structure TestCase where
  args : List String
  expected : String
  hidden : Bool
deriving DecidableEq, Repr

/-- A stored question document (`QuestionsModelSchema`), including the
internal storage identifier `_id`. -/
structure QuestionDoc where
  _id : String
  title : String
  difficulty : String
  topics : List String
  problemStatement : String
  constraints : List String
  examples : List Example
  codeSnippets : Option (List CodeSnippet)
  entryPoint : String
  timeout : Nat
  signature : Option Signature
  testCases : List TestCase
deriving DecidableEq, Repr

/-- The mongoose virtual getter `question.id`: the string form of the
internal `_id`. -/
def QuestionDoc.id (q : QuestionDoc) : String := q._id

/-- The public question shape produced by `formatQuestionResponse`: the
same content fields, with the public `id` and without the storage `_id`. -/
structure FormattedQuestion where
  id : String
  title : String
  difficulty : String
  topics : List String
  problemStatement : String
  constraints : List String
  examples : List Example
  codeSnippets : Option (List CodeSnippet)
  entryPoint : String
  timeout : Nat
  signature : Option Signature
  testCases : List TestCase
deriving DecidableEq, Repr

/-- `formatQuestionResponse` (question-model.js, lines 537-552): the pure
formatter shared by the CRUD responses and the match replies. -/
def formatQuestionResponse (question : QuestionDoc) : FormattedQuestion :=
  { id := question.id
    title := question.title
    difficulty := question.difficulty
    topics := question.topics
    problemStatement := question.problemStatement
    constraints := question.constraints
    examples := question.examples
    codeSnippets := question.codeSnippets
    entryPoint := question.entryPoint
    timeout := question.timeout
    signature := question.signature
    testCases := question.testCases }

/-- The recognized difficulty values (`DIFFICULTIES` in question-model.js). -/
def DIFFICULTIES : List String := ["Easy", "Medium", "Hard"]

/-- The recognized topic labels (`TOPICS` in question-model.js). -/
def TOPICS : List String :=
  ["Strings", "Arrays", "Linked List", "Heaps", "Hashmap", "Greedy",
   "Graphs", "Dynamic Programming"]

/-- Outcome of one repository query, seen as a settled JS promise:
`resolved none` models a `null`/undefined result, `resolved (some rows)` an
array result, `rejected e` a query that threw the exception value `e`. -/
inductive StoreResult where
  | resolved (rows : Option (List QuestionDoc))
  | rejected (e : String)
deriving DecidableEq, Repr

/-- JS falsiness of an optional string field: an absent field and the empty
string are both falsy. -/
def jsFalsyStr : Option String → Bool
  | none => true
  | some s => s == ""

/-- The `meta` object of an inbound Kafka message; either field may be
absent. -/
structure Meta where
  difficulty : Option String
  topics : Option (List String)
deriving DecidableEq, Repr

/-- An inbound Kafka message as destructured by the handler; `meta` itself
may be absent. -/
structure InboundMessage where
  correlationId : String
  meta : Option Meta
deriving DecidableEq, Repr

/-- Reply status values used on the `question-replies` topic. -/
inductive ReplyStatus where
  | success
  | error
deriving DecidableEq, Repr

/-- A reply published to the `question-replies` topic. `data := none`
models the JSON `data: null` of the error replies. -/
structure MatchReply where
  correlationId : String
  status : ReplyStatus
  data : Option FormattedQuestion
  message : String
deriving DecidableEq, Repr

/-- Whether a handler invocation returned normally or an exception escaped
it. -/
inductive Outcome where
  | ok
  | threw (e : String)
deriving DecidableEq, Repr

/-- Trace of one `handleMatchingRequest` invocation: the repository queries
issued (difficulty and the possibly-undefined first topic), the publish
attempts in order, the attempts whose send resolved, and the outcome. -/
structure HandlerTrace where
  queries : List (String × Option String)
  attempts : List MatchReply
  published : List MatchReply
  outcome : Outcome
deriving DecidableEq, Repr

/-- The no-match error reply (question-model.js, lines 579-591). -/
def noMatchReply (cid : String) : MatchReply :=
  { correlationId := cid
    status := .error
    data := none
    message := "No questions found matching the criteria." }

/-- The generic internal error reply sent from the catch block
(question-model.js, lines 620-632). -/
def internalErrorReply (cid : String) : MatchReply :=
  { correlationId := cid
    status := .error
    data := none
    message := "An internal error occurred in the Question Service." }

/-- The success reply (question-model.js, lines 598-610). -/
def successReply (cid : String) (q : QuestionDoc) : MatchReply :=
  { correlationId := cid
    status := .success
    data := some (formatQuestionResponse q)
    message := "Question found successfully." }

/-- Publication of a reply from inside the try block of the handler. If the
send rejects, control reaches the catch block, which attempts the generic
internal error reply; a rejection of that second send is swallowed by the
inner try/catch. Returns the list of attempts and the list of attempts
whose send resolved. -/
def sendReplyWithCatch (pub : Nat → Bool) (cid : String) (r1 : MatchReply) :
    List MatchReply × List MatchReply :=
  if pub 0 then ([r1], [r1])
  else if pub 1 then ([r1, internalErrorReply cid], [internalErrorReply cid])
  else ([r1, internalErrorReply cid], [])

/-- `handleMatchingRequest` (question-model.js, lines 558-639), the Kafka
controller. `store` gives the settled outcome of
`_findRandomQuestion(difficulty, topics[0])` for the arguments it is called
with; `pub` gives the outcome of each `producer.send`.

The source destructures `{ correlationId, meta }` and then evaluates
`meta.difficulty`; when `meta` is absent this evaluation throws a
`TypeError` before the try block is entered, so the exception escapes the
handler. When both fields pass the falsiness guard the handler queries the
repository with `meta.topics[0]` (undefined for an empty array, hence the
`Option String` argument) and publishes exactly one of the three replies,
with the catch-block fallback described at `sendReplyWithCatch`. -/
def handleMatchingRequest (store : String → Option String → StoreResult)
    (pub : Nat → Bool) (msg : InboundMessage) : HandlerTrace :=
  match msg.meta with
  | none =>
      { queries := [], attempts := [], published := [],
        outcome := .threw "TypeError: cannot read properties of undefined" }
  | some meta =>
      if jsFalsyStr meta.difficulty || meta.topics.isNone then
        { queries := [], attempts := [], published := [], outcome := .ok }
      else
        let difficulty := meta.difficulty.getD ""
        let topic0 : Option String := (meta.topics.getD []).head?
        match store difficulty topic0 with
        | .rejected _ =>
            { queries := [(difficulty, topic0)]
              attempts := [internalErrorReply msg.correlationId]
              published :=
                if pub 0 then [internalErrorReply msg.correlationId] else []
              outcome := .ok }
        | .resolved none =>
            let ap := sendReplyWithCatch pub msg.correlationId
              (noMatchReply msg.correlationId)
            { queries := [(difficulty, topic0)], attempts := ap.1,
              published := ap.2, outcome := .ok }
        | .resolved (some []) =>
            let ap := sendReplyWithCatch pub msg.correlationId
              (noMatchReply msg.correlationId)
            { queries := [(difficulty, topic0)], attempts := ap.1,
              published := ap.2, outcome := .ok }
        | .resolved (some (q :: _)) =>
            let ap := sendReplyWithCatch pub msg.correlationId
              (successReply msg.correlationId q)
            { queries := [(difficulty, topic0)], attempts := ap.1,
              published := ap.2, outcome := .ok }

/-- An HTTP response of the random-question endpoint: status code, message
and optional data payload. -/
structure HttpResponse where
  status : Nat
  message : String
  data : Option FormattedQuestion
deriving DecidableEq, Repr

/-- Trace of one `getRandomQuestion` invocation: repository queries issued
and the response returned. -/
structure HttpTrace where
  queries : List (String × Option String)
  response : HttpResponse
deriving DecidableEq, Repr

/-- `getRandomQuestion` (question-model.js, lines 479-510), the HTTP
endpoint. Its two query parameters may be absent; falsiness checks and the
value validation against `DIFFICULTIES` and `TOPICS` happen before the
repository query. The repository is called with the `topics` string
itself. -/
def getRandomQuestion (store : String → Option String → StoreResult)
    (difficulty topics : Option String) : HttpTrace :=
  if jsFalsyStr difficulty then
    { queries := [], response :=
      { status := 404, message := "Difficulty must be specified", data := none } }
  else if jsFalsyStr topics then
    { queries := [], response :=
      { status := 404, message := "Topics must be specified", data := none } }
  else
    let d := difficulty.getD ""
    let t := topics.getD ""
    if (DIFFICULTIES.contains d) = false then
      { queries := [], response :=
        { status := 404, message := "Invalid difficulty level: " ++ d,
          data := none } }
    else if (TOPICS.contains t) = false then
      { queries := [], response :=
        { status := 404, message := "Invalid topic: " ++ t, data := none } }
    else
      match store d (some t) with
      | .rejected _ =>
          { queries := [(d, some t)], response :=
            { status := 500,
              message := "Unknown error when getting a random question!",
              data := none } }
      | .resolved none =>
          { queries := [(d, some t)], response :=
            { status := 404,
              message := "No questions found matching the criteria.",
              data := none } }
      | .resolved (some []) =>
          { queries := [(d, some t)], response :=
            { status := 404,
              message := "No questions found matching the criteria.",
              data := none } }
      | .resolved (some (q :: _)) =>
          { queries := [(d, some t)], response :=
            { status := 200,
              message := "Found a random question for the difficulty: " ++ d
                ++ " and topic: " ++ t,
              data := some (formatQuestionResponse q) } }

/-- Modelled from the spec: the record filter of the repository selector.
`findRandomQuestion` is defined in
`backend/question-service/model/repository.js`, which is not among the
provided sources (only its import and its call sites are). Per the
specification, selection restricts to records whose `difficulty` equals the
input exactly and whose topic set contains the input topic. -/
def questionMatches (d t : String) (q : QuestionDoc) : Bool :=
  q.difficulty == d && q.topics.contains t

/-- Modelled from the spec: the repository selector
`findRandomQuestion(difficulty, topic)` of `repository.js` (not among the
provided sources). Per the specification it returns one record chosen
uniformly at random among all matches, or a no-match signal (`none`) when
no record matches. The randomness source is an explicit `seed`: a seed
drawn uniformly from `0, ..., N-1` (for `N` matches) induces the selection
distribution of the selector. -/
def findRandomQuestion (store : List QuestionDoc) (d t : String)
    (seed : Nat) : Option QuestionDoc :=
  let ms := store.filter (questionMatches d t)
  if ms.isEmpty then none else ms[seed % ms.length]?

/-- A concrete question document used to instantiate theorems. -/
def sampleQuestion : QuestionDoc :=
  { _id := "65f0a1b2c3d4e5f6a7b8c9d0"
    title := "Two Sum"
    difficulty := "Easy"
    topics := ["Arrays"]
    problemStatement := "Given an array of integers, return indices of two numbers adding to a target."
    constraints := ["All numbers are integers."]
    examples := [{ input := some "[2,7,11,15], 9", output := some "[0,1]",
                   explanation := none, image := none }]
    codeSnippets := none
    entryPoint := "twoSum"
    timeout := 1
    signature := none
    testCases := [{ args := ["[2,7,11,15]", "9"], expected := "[0,1]",
                    hidden := false }] }

/-- A second concrete question document, matching the same criteria as
`sampleQuestion` but distinct from it. -/
def sampleQuestion2 : QuestionDoc :=
  { sampleQuestion with
    _id := "65f0a1b2c3d4e5f6a7b8c9d1"
    title := "Three Sum" }

/-- The publish oracle in which every `producer.send` resolves. -/
def pubAllOk : Nat → Bool := fun _ => true

/-- The publish oracle in which every `producer.send` rejects. -/
def pubAllFail : Nat → Bool := fun _ => false

/-- A store whose every query resolves with an empty array of rows. -/
def storeEmpty : String → Option String → StoreResult :=
  fun _ _ => .resolved (some [])

/-- Claim C1 (confirmed): for every inbound message whose `meta.difficulty`
and `meta.topics` are present (a syntactically valid MatchRequest, with a
recognized difficulty), and for every store behaviour — rows returned, no
rows, or a thrown query — with all sends resolving, `handleMatchingRequest`
publishes exactly one reply, and its `correlationId` equals the
`correlationId` of the triggering request. -/
theorem handleMatchingRequest_exactly_one_reply
    (store : String → Option String → StoreResult) (pub : Nat → Bool)
    (msg : InboundMessage) (m : Meta) (d : String) (ts : List String)
    (hm : msg.meta = some m) (hd : m.difficulty = some d)
    (hdv : d ∈ DIFFICULTIES) (ht : m.topics = some ts)
    (hpub : ∀ n, pub n = true) :
    (handleMatchingRequest store pub msg).published.length = 1 ∧
      ∀ r ∈ (handleMatchingRequest store pub msg).published,
        r.correlationId = msg.correlationId := by
  have hne : (d == "") = false := by
    rcases hm with _
    fin_cases hdv <;> rfl
  simp only [handleMatchingRequest, hm, hd, ht, jsFalsyStr, hne,
    Option.isNone_some, Bool.or_self, Bool.false_or, if_false, Option.getD_some]
  cases hst : store d ts.head? with
  | rejected e => simp [hpub 0, internalErrorReply]
  | resolved rows =>
    cases rows with
    | none => simp [sendReplyWithCatch, hpub 0, noMatchReply]
    | some l =>
      cases l with
      | nil => simp [sendReplyWithCatch, hpub 0, noMatchReply]
      | cons q l' => simp [sendReplyWithCatch, hpub 0, successReply]

/-- Witness for C1: the request of the spec's example scenario, against a
store with no matching rows, gets exactly one reply carrying its
correlation id. -/
theorem handleMatchingRequest_exactly_one_reply_witness :
    (handleMatchingRequest storeEmpty pubAllOk
        ⟨"abc-1", some ⟨some "Easy", some ["Strings"]⟩⟩).published.length = 1 ∧
      ∀ r ∈ (handleMatchingRequest storeEmpty pubAllOk
          ⟨"abc-1", some ⟨some "Easy", some ["Strings"]⟩⟩).published,
        r.correlationId = "abc-1" :=
  handleMatchingRequest_exactly_one_reply storeEmpty pubAllOk
    ⟨"abc-1", some ⟨some "Easy", some ["Strings"]⟩⟩ ⟨some "Easy", some ["Strings"]⟩
    "Easy" ["Strings"] rfl rfl (by decide) rfl (fun _ => rfl)

/-- Counterexample to claim C2: a request with `difficulty = "Extreme"` (not
a recognized value) does reach the store query — the handler performs no
value validation — and the reply it then publishes is the no-match reply
produced by the empty query result, not a validation rejection. -/
theorem handleMatchingRequest_extreme_reaches_store :
    (handleMatchingRequest storeEmpty pubAllOk
        ⟨"c2", some ⟨some "Extreme", some ["Strings"]⟩⟩).queries =
      [("Extreme", some "Strings")] ∧
    (handleMatchingRequest storeEmpty pubAllOk
        ⟨"c2", some ⟨some "Extreme", some ["Strings"]⟩⟩).published.map
          MatchReply.message = ["No questions found matching the criteria."] := by
  constructor <;> rfl

/-- Claim C2 as amended: `handleMatchingRequest` performs no validation of
the criteria values — any request with a present, non-empty difficulty is
passed to the store query, and an unmatched one is answered through the
no-match `status=error` reply; the value validation described by the spec
exists only on the HTTP `getRandomQuestion` path, which does reject an
unrecognized difficulty with a 404 before querying the store. -/
theorem handleMatchingRequest_no_value_validation
    (store : String → Option String → StoreResult) (pub : Nat → Bool)
    (msg : InboundMessage) (m : Meta) (d t : String) (ts : List String)
    (hm : msg.meta = some m) (hd : m.difficulty = some d) (hne : d ≠ "")
    (ht : m.topics = some ts) (hdv : d ∉ DIFFICULTIES) :
    (handleMatchingRequest store pub msg).queries = [(d, ts.head?)] ∧
    (handleMatchingRequest storeEmpty pubAllOk msg).published =
      [noMatchReply msg.correlationId] ∧
    (getRandomQuestion store (some d) (some t)).queries = [] ∧
    (getRandomQuestion store (some d) (some t)).response.status = 404 := by
  have hne' : (d == "") = false := by simp [hne]
  have hcont : DIFFICULTIES.contains d = false := by
    simpa using hdv
  refine ⟨?_, ?_, ?_, ?_⟩
  · simp only [handleMatchingRequest, hm, hd, ht, jsFalsyStr, hne',
      Option.isNone_some, Bool.or_self, if_false, Option.getD_some]
    cases store d ts.head? with
    | rejected e => rfl
    | resolved rows =>
      cases rows with
      | none => rfl
      | some l => cases l with
        | nil => rfl
        | cons q l' => rfl
  · simp [handleMatchingRequest, hm, hd, ht, jsFalsyStr, hne', storeEmpty,
      sendReplyWithCatch, pubAllOk]
  · by_cases hte : (t == "") = true
    · simp [getRandomQuestion, jsFalsyStr, hne', hte]
    · simp only [Bool.not_eq_true] at hte
      simp [getRandomQuestion, jsFalsyStr, hne', hte, hcont, hdv]
  · by_cases hte : (t == "") = true
    · simp [getRandomQuestion, jsFalsyStr, hne', hte]
    · simp only [Bool.not_eq_true] at hte
      simp [getRandomQuestion, jsFalsyStr, hne', hte, hcont, hdv]

/-- Witness for the amended C2, at difficulty `"Extreme"`. -/
theorem handleMatchingRequest_no_value_validation_witness :
    (handleMatchingRequest storeEmpty pubAllFail
        ⟨"c2w", some ⟨some "Extreme", some ["Strings"]⟩⟩).queries =
      [("Extreme", some "Strings")] ∧
    (handleMatchingRequest storeEmpty pubAllOk
        ⟨"c2w", some ⟨some "Extreme", some ["Strings"]⟩⟩).published =
      [noMatchReply "c2w"] ∧
    (getRandomQuestion storeEmpty (some "Extreme") (some "Strings")).queries = [] ∧
    (getRandomQuestion storeEmpty (some "Extreme")
        (some "Strings")).response.status = 404 :=
  handleMatchingRequest_no_value_validation storeEmpty pubAllFail
    ⟨"c2w", some ⟨some "Extreme", some ["Strings"]⟩⟩
    ⟨some "Extreme", some ["Strings"]⟩ "Extreme" "Strings" ["Strings"]
    rfl rfl (by decide) rfl (by decide)

/-- Counterexample to claim C3: when the store returns a record and the
publish of the success reply rejects, the catch block makes a second
publish attempt (the generic error reply) for the same request — two
attempts, not at most one. -/
theorem handleMatchingRequest_second_attempt_after_failed_publish :
    (handleMatchingRequest (fun _ _ => .resolved (some [sampleQuestion])) pubAllFail
        ⟨"c3", some ⟨some "Easy", some ["Arrays"]⟩⟩).attempts =
      [successReply "c3" sampleQuestion, internalErrorReply "c3"] ∧
    (handleMatchingRequest (fun _ _ => .resolved (some [sampleQuestion])) pubAllFail
        ⟨"c3", some ⟨some "Easy", some ["Arrays"]⟩⟩).attempts.length = 2 := by
  constructor <;> rfl

/-- Claim C3 as amended: at most two publish attempts are made per handled
request; a second attempt occurs exactly when the first publish (of a
success or no-match reply) fails, and it is the generic internal error
reply — a failure of that second attempt (and of the error reply on the
store-throw path) is only logged, with no further attempt. -/
theorem handleMatchingRequest_at_most_two_attempts
    (store : String → Option String → StoreResult) (pub : Nat → Bool)
    (msg : InboundMessage) :
    (handleMatchingRequest store pub msg).attempts.length ≤ 2 ∧
    ((handleMatchingRequest store pub msg).attempts.length = 2 →
      pub 0 = false ∧
      (handleMatchingRequest store pub msg).attempts[1]? =
        some (internalErrorReply msg.correlationId)) := by
  cases hmm : msg.meta with
  | none => simp [handleMatchingRequest, hmm]
  | some m =>
    by_cases hg : (jsFalsyStr m.difficulty || m.topics.isNone) = true
    · simp [handleMatchingRequest, hmm, hg]
    · simp only [Bool.not_eq_true] at hg
      simp only [handleMatchingRequest, hmm, hg, if_false]
      cases store (m.difficulty.getD "") ((m.topics.getD []).head?) with
      | rejected e => simp
      | resolved rows =>
        cases h0 : pub 0 with
        | true =>
          cases rows with
          | none => simp [sendReplyWithCatch, h0]
          | some l => cases l with
            | nil => simp [sendReplyWithCatch, h0]
            | cons q l' => simp [sendReplyWithCatch, h0]
        | false =>
          cases rows with
          | none => cases h1 : pub 1 <;> simp [sendReplyWithCatch, h0, h1]
          | some l => cases l with
            | nil => cases h1 : pub 1 <;> simp [sendReplyWithCatch, h0, h1]
            | cons q l' => cases h1 : pub 1 <;> simp [sendReplyWithCatch, h0, h1]

/-- Witness for the amended C3: a run whose first publish fails, showing the
two-attempt bound and the identity of the second attempt. -/
theorem handleMatchingRequest_at_most_two_attempts_witness :
    (handleMatchingRequest storeEmpty pubAllFail
        ⟨"c3w", some ⟨some "Easy", some ["Arrays"]⟩⟩).attempts.length ≤ 2 ∧
    ((handleMatchingRequest storeEmpty pubAllFail
        ⟨"c3w", some ⟨some "Easy", some ["Arrays"]⟩⟩).attempts.length = 2 →
      pubAllFail 0 = false ∧
      (handleMatchingRequest storeEmpty pubAllFail
          ⟨"c3w", some ⟨some "Easy", some ["Arrays"]⟩⟩).attempts[1]? =
        some (internalErrorReply "c3w")) :=
  handleMatchingRequest_at_most_two_attempts storeEmpty pubAllFail
    ⟨"c3w", some ⟨some "Easy", some ["Arrays"]⟩⟩

/-- Claim C4 (confirmed): for every inbound message whose `meta` is present
but whose `meta.difficulty` or `meta.topics` is missing, the handler makes
no publish attempt at all, publishes nothing, and returns normally — the
message is only logged and discarded. -/
theorem handleMatchingRequest_missing_field_silent
    (store : String → Option String → StoreResult) (pub : Nat → Bool)
    (msg : InboundMessage) (m : Meta) (hm : msg.meta = some m)
    (h : m.difficulty = none ∨ m.topics = none) :
    (handleMatchingRequest store pub msg).attempts = [] ∧
    (handleMatchingRequest store pub msg).published = [] ∧
    (handleMatchingRequest store pub msg).outcome = .ok := by
  have hg : (jsFalsyStr m.difficulty || m.topics.isNone) = true := by
    rcases h with h | h <;> simp [jsFalsyStr, h]
  simp [handleMatchingRequest, hm, hg]

/-- Witness for C4: a message with `meta.difficulty` missing. -/
theorem handleMatchingRequest_missing_field_silent_witness :
    (handleMatchingRequest storeEmpty pubAllOk
        ⟨"c4", some ⟨none, some ["Strings"]⟩⟩).attempts = [] ∧
    (handleMatchingRequest storeEmpty pubAllOk
        ⟨"c4", some ⟨none, some ["Strings"]⟩⟩).published = [] ∧
    (handleMatchingRequest storeEmpty pubAllOk
        ⟨"c4", some ⟨none, some ["Strings"]⟩⟩).outcome = .ok :=
  handleMatchingRequest_missing_field_silent storeEmpty pubAllOk
    ⟨"c4", some ⟨none, some ["Strings"]⟩⟩ ⟨none, some ["Strings"]⟩ rfl (Or.inl rfl)

/-- Claim C5 (confirmed): for every valid request whose store query throws —
with an arbitrary exception value `e` — the exception is caught inside the
handler (it returns normally), and the single published reply is the fixed
generic record: `status=error`, `data=null`, and a constant message that
does not depend on `e`. -/
theorem handleMatchingRequest_store_throw_generic_reply
    (store : String → Option String → StoreResult) (pub : Nat → Bool)
    (msg : InboundMessage) (m : Meta) (d : String) (ts : List String) (e : String)
    (hm : msg.meta = some m) (hd : m.difficulty = some d) (hne : d ≠ "")
    (ht : m.topics = some ts) (hst : store d ts.head? = .rejected e)
    (hpub : pub 0 = true) :
    (handleMatchingRequest store pub msg).outcome = .ok ∧
    (handleMatchingRequest store pub msg).published =
      [internalErrorReply msg.correlationId] ∧
    (internalErrorReply msg.correlationId).status = .error ∧
    (internalErrorReply msg.correlationId).data = none ∧
    (internalErrorReply msg.correlationId).message =
      "An internal error occurred in the Question Service." := by
  have hne' : (d == "") = false := by simp [hne]
  simp [handleMatchingRequest, hm, hd, ht, jsFalsyStr, hne', hst, hpub,
    internalErrorReply]

/-- Witness for C5: a store that rejects with `"boom"`. -/
theorem handleMatchingRequest_store_throw_generic_reply_witness :
    (handleMatchingRequest (fun _ _ => .rejected "boom") pubAllOk
        ⟨"c5", some ⟨some "Hard", some ["Graphs"]⟩⟩).outcome = .ok ∧
    (handleMatchingRequest (fun _ _ => .rejected "boom") pubAllOk
        ⟨"c5", some ⟨some "Hard", some ["Graphs"]⟩⟩).published =
      [internalErrorReply "c5"] ∧
    (internalErrorReply "c5").status = .error ∧
    (internalErrorReply "c5").data = none ∧
    (internalErrorReply "c5").message =
      "An internal error occurred in the Question Service." :=
  handleMatchingRequest_store_throw_generic_reply (fun _ _ => .rejected "boom")
    pubAllOk ⟨"c5", some ⟨some "Hard", some ["Graphs"]⟩⟩
    ⟨some "Hard", some ["Graphs"]⟩ "Hard" ["Graphs"] "boom"
    rfl rfl (by decide) rfl rfl rfl

/-- Counterexample to claim C6: the no-match reply's message is
`"No questions found matching the criteria."` (capital N), not the
lower-case `"no questions found matching the criteria."` stated by the
claim. -/
theorem handleMatchingRequest_no_match_message_capitalized :
    (handleMatchingRequest storeEmpty pubAllOk
        ⟨"c6", some ⟨some "Easy", some ["Strings"]⟩⟩).published.map
          MatchReply.message = ["No questions found matching the criteria."] ∧
    ("No questions found matching the criteria." : String) ≠
      "no questions found matching the criteria." := by
  constructor
  · rfl
  · decide

/-- Claim C6 as amended: for every valid request for which the store query
resolves with no rows (a null result or an empty array), the handler
publishes the reply with `status=error`, `data=null`, and message `"No
questions found matching the criteria."` (capital N), and this path raises
no unhandled fault. -/
theorem handleMatchingRequest_no_match_error_reply
    (store : String → Option String → StoreResult) (pub : Nat → Bool)
    (msg : InboundMessage) (m : Meta) (d : String) (ts : List String)
    (rows : Option (List QuestionDoc))
    (hm : msg.meta = some m) (hd : m.difficulty = some d) (hne : d ≠ "")
    (ht : m.topics = some ts) (hst : store d ts.head? = .resolved rows)
    (hrows : rows = none ∨ rows = some []) (hpub : pub 0 = true) :
    (handleMatchingRequest store pub msg).published =
      [noMatchReply msg.correlationId] ∧
    (handleMatchingRequest store pub msg).outcome = .ok ∧
    (noMatchReply msg.correlationId).status = .error ∧
    (noMatchReply msg.correlationId).data = none ∧
    (noMatchReply msg.correlationId).message =
      "No questions found matching the criteria." := by
  have hne' : (d == "") = false := by simp [hne]
  rcases hrows with h | h <;> subst h <;>
    simp [handleMatchingRequest, hm, hd, ht, jsFalsyStr, hne', hst,
      sendReplyWithCatch, hpub, noMatchReply]

/-- Witness for the amended C6: an empty store result. -/
theorem handleMatchingRequest_no_match_error_reply_witness :
    (handleMatchingRequest storeEmpty pubAllOk
        ⟨"c6w", some ⟨some "Medium", some ["Graphs"]⟩⟩).published =
      [noMatchReply "c6w"] ∧
    (handleMatchingRequest storeEmpty pubAllOk
        ⟨"c6w", some ⟨some "Medium", some ["Graphs"]⟩⟩).outcome = .ok ∧
    (noMatchReply "c6w").status = .error ∧
    (noMatchReply "c6w").data = none ∧
    (noMatchReply "c6w").message = "No questions found matching the criteria." :=
  handleMatchingRequest_no_match_error_reply storeEmpty pubAllOk
    ⟨"c6w", some ⟨some "Medium", some ["Graphs"]⟩⟩
    ⟨some "Medium", some ["Graphs"]⟩ "Medium" ["Graphs"] (some [])
    rfl rfl (by decide) rfl rfl (Or.inr rfl) rfl

/-- Counterexample to claim C7: a message whose `meta` field is absent makes
`meta.difficulty` throw before the try block is entered, so a TypeError
escapes the handler — an uncaught exception that is neither absorbed nor a
publish fault. -/
theorem handleMatchingRequest_missing_meta_throws :
    (handleMatchingRequest storeEmpty pubAllOk ⟨"c7", none⟩).outcome =
      .threw "TypeError: cannot read properties of undefined" ∧
    (handleMatchingRequest storeEmpty pubAllOk ⟨"c7", none⟩).outcome ≠ .ok := by
  constructor
  · rfl
  · decide

/-- Claim C7 as amended: for every inbound message whose `meta` field is
present, no exception escapes the handler — decode, validation, store and
even publish failures are all absorbed; only a message with `meta` absent
entirely raises an uncaught TypeError. -/
theorem handleMatchingRequest_absorbs_all_failures
    (store : String → Option String → StoreResult) (pub : Nat → Bool)
    (msg : InboundMessage) (m : Meta) (hm : msg.meta = some m) :
    (handleMatchingRequest store pub msg).outcome = .ok := by
  by_cases hg : (jsFalsyStr m.difficulty || m.topics.isNone) = true
  · simp [handleMatchingRequest, hm, hg]
  · simp only [Bool.not_eq_true] at hg
    simp only [handleMatchingRequest, hm, hg, if_false]
    cases store (m.difficulty.getD "") ((m.topics.getD []).head?) with
    | rejected e => rfl
    | resolved rows =>
      cases rows with
      | none => rfl
      | some l => cases l with
        | nil => rfl
        | cons q l' => rfl

/-- Witness for the amended C7: a throwing store and failing sends still
leave the handler returning normally. -/
theorem handleMatchingRequest_absorbs_all_failures_witness :
    (handleMatchingRequest (fun _ _ => .rejected "store down") pubAllFail
        ⟨"c7w", some ⟨some "Easy", some ["Heaps"]⟩⟩).outcome = .ok :=
  handleMatchingRequest_absorbs_all_failures (fun _ _ => .rejected "store down")
    pubAllFail ⟨"c7w", some ⟨some "Easy", some ["Heaps"]⟩⟩
    ⟨some "Easy", some ["Heaps"]⟩ rfl

/-- Claim C8 (confirmed against the spec-modelled selector): for a fixed
store whose matching set for a (difficulty, topic) filter has N ≥ 2
pairwise-distinct records, each matching record is selected by exactly one
of the N seeds — under a uniformly distributed seed, each record is
returned with probability 1/N, so selection is not always the first match
nor any other fixed choice. -/
theorem findRandomQuestion_uniform
    (store : List QuestionDoc) (d t : String) (q : QuestionDoc)
    (hq : q ∈ store.filter (questionMatches d t))
    (hN : 2 ≤ (store.filter (questionMatches d t)).length)
    (hnd : (store.filter (questionMatches d t)).Nodup) :
    ((Finset.range (store.filter (questionMatches d t)).length).filter
        (fun s => findRandomQuestion store d t s = some q)).card = 1 := by
  set ms := store.filter (questionMatches d t) with hms
  obtain ⟨i, hi, hqi⟩ := List.mem_iff_getElem.mp hq
  have hemp : ms.isEmpty = false := by
    cases hml : ms with
    | nil => rw [hml] at hN; simp at hN
    | cons a l => rfl
  have hsel : ∀ s : Nat, findRandomQuestion store d t s = ms[s % ms.length]? := by
    intro s
    unfold findRandomQuestion
    rw [← hms]
    simp [hemp]
  have key : ∀ s ∈ Finset.range ms.length,
      ((findRandomQuestion store d t s = some q) ↔ s = i) := by
    intro s hs
    rw [Finset.mem_range] at hs
    rw [hsel s, Nat.mod_eq_of_lt hs, List.getElem?_eq_getElem hs]
    rw [Option.some_inj]
    constructor
    · intro h
      have : ms[s] = ms[i] := by rw [h, hqi]
      exact (List.Nodup.getElem_inj_iff hnd).mp this
    · intro h
      subst h
      exact hqi
  rw [Finset.filter_congr key, Finset.filter_eq',
    if_pos (Finset.mem_range.mpr hi), Finset.card_singleton]

/-- Witness for C8: a store with two distinct Easy/Arrays records; the first
record is selected by exactly one of the two seeds. -/
theorem findRandomQuestion_uniform_witness :
    sampleQuestion ∈
      ([sampleQuestion, sampleQuestion2].filter (questionMatches "Easy" "Arrays")) ∧
    2 ≤ ([sampleQuestion, sampleQuestion2].filter
      (questionMatches "Easy" "Arrays")).length ∧
    ([sampleQuestion, sampleQuestion2].filter
      (questionMatches "Easy" "Arrays")).Nodup ∧
    ((Finset.range ([sampleQuestion, sampleQuestion2].filter
          (questionMatches "Easy" "Arrays")).length).filter
        (fun s => findRandomQuestion [sampleQuestion, sampleQuestion2]
          "Easy" "Arrays" s = some sampleQuestion)).card = 1 :=
  ⟨by decide, by decide, by decide,
    findRandomQuestion_uniform [sampleQuestion, sampleQuestion2] "Easy" "Arrays"
      sampleQuestion (by decide) (by decide) (by decide)⟩

/-- Claim C9 (confirmed): the data payload of a success match reply and the
data payload of the HTTP random-question response are both
`formatQuestionResponse` of the selected record — the two surfaces
serialize the record identically — and the formatted record's public `id`
is the string form of the internal storage identifier `_id` (which the
formatted shape does not carry). -/
theorem match_reply_and_crud_share_formatter
    (pub : Nat → Bool) (msg : InboundMessage) (m : Meta) (d t : String)
    (ts : List String) (q : QuestionDoc) (rest : List QuestionDoc)
    (hm : msg.meta = some m) (hd : m.difficulty = some d)
    (hdv : d ∈ DIFFICULTIES) (ht : m.topics = some ts)
    (htv : t ∈ TOPICS) (hpub : pub 0 = true) :
    (handleMatchingRequest (fun _ _ => .resolved (some (q :: rest))) pub
        msg).published.map MatchReply.data = [some (formatQuestionResponse q)] ∧
    (getRandomQuestion (fun _ _ => .resolved (some (q :: rest)))
        (some d) (some t)).response.data = some (formatQuestionResponse q) ∧
    (formatQuestionResponse q).id = q._id := by
  have hne' : (d == "") = false := by fin_cases hdv <;> rfl
  have hte' : (t == "") = false := by fin_cases htv <;> rfl
  refine ⟨?_, ?_, rfl⟩
  · simp [handleMatchingRequest, hm, hd, ht, jsFalsyStr, hne',
      sendReplyWithCatch, hpub, successReply]
  · simp [getRandomQuestion, jsFalsyStr, hne', hte', hdv, htv]

/-- Witness for C9: both surfaces serialize `sampleQuestion` identically. -/
theorem match_reply_and_crud_share_formatter_witness :
    (handleMatchingRequest (fun _ _ => .resolved (some [sampleQuestion])) pubAllOk
        ⟨"c9", some ⟨some "Easy", some ["Arrays"]⟩⟩).published.map
          MatchReply.data = [some (formatQuestionResponse sampleQuestion)] ∧
    (getRandomQuestion (fun _ _ => .resolved (some [sampleQuestion]))
        (some "Easy") (some "Arrays")).response.data =
      some (formatQuestionResponse sampleQuestion) ∧
    (formatQuestionResponse sampleQuestion).id = sampleQuestion._id :=
  match_reply_and_crud_share_formatter pubAllOk
    ⟨"c9", some ⟨some "Easy", some ["Arrays"]⟩⟩
    ⟨some "Easy", some ["Arrays"]⟩ "Easy" "Arrays" ["Arrays"] sampleQuestion []
    rfl rfl (by decide) rfl (by decide) rfl

/-- Counterexample to claim C10: a message whose `meta.difficulty` is
present but equal to the empty string (which is falsy in JS) and whose
`meta.topics` is an empty array is treated as malformed — the handler
issues no store query and publishes nothing, contradicting the claim that
every message with `meta.difficulty` present and empty `meta.topics`
results in a query and a reply. -/
theorem handleMatchingRequest_empty_string_difficulty_discarded :
    (handleMatchingRequest storeEmpty pubAllOk
        ⟨"c10", some ⟨some "", some []⟩⟩).queries = [] ∧
    (handleMatchingRequest storeEmpty pubAllOk
        ⟨"c10", some ⟨some "", some []⟩⟩).attempts = [] ∧
    (handleMatchingRequest storeEmpty pubAllOk
        ⟨"c10", some ⟨some "", some []⟩⟩).published = [] := by
  refine ⟨rfl, rfl, rfl⟩

/-- Claim C10 as amended: for every message whose `meta.difficulty` is
present and non-empty (JS-truthy) and whose `meta.topics` is an empty
array, the handler does not treat the message as malformed — the emptiness
of `topics` is never checked: it queries the store with `topics[0]`, which
is undefined (`none`), and publishes a reply rather than staying silent. -/
theorem handleMatchingRequest_empty_topics_still_queried
    (store : String → Option String → StoreResult) (pub : Nat → Bool)
    (msg : InboundMessage) (m : Meta) (d : String)
    (hm : msg.meta = some m) (hd : m.difficulty = some d) (hne : d ≠ "")
    (ht : m.topics = some []) (hpub : pub 0 = true) :
    (handleMatchingRequest store pub msg).queries = [(d, none)] ∧
    (handleMatchingRequest store pub msg).published ≠ [] := by
  have hne' : (d == "") = false := by simp [hne]
  simp only [handleMatchingRequest, hm, hd, ht, jsFalsyStr, hne',
    Option.isNone_some, Bool.or_self, if_false, Option.getD_some]
  cases store d ([] : List String).head? with
  | rejected e => simp [hpub]
  | resolved rows =>
    cases rows with
    | none => simp [sendReplyWithCatch, hpub]
    | some l => cases l with
      | nil => simp [sendReplyWithCatch, hpub]
      | cons q l' => simp [sendReplyWithCatch, hpub]

/-- Witness for the amended C10: difficulty `"Easy"` with an empty topics
array still queries the store (with an undefined topic) and gets a reply. -/
theorem handleMatchingRequest_empty_topics_still_queried_witness :
    (handleMatchingRequest storeEmpty pubAllOk
        ⟨"c10w", some ⟨some "Easy", some []⟩⟩).queries = [("Easy", none)] ∧
    (handleMatchingRequest storeEmpty pubAllOk
        ⟨"c10w", some ⟨some "Easy", some []⟩⟩).published ≠ [] :=
  handleMatchingRequest_empty_topics_still_queried storeEmpty pubAllOk
    ⟨"c10w", some ⟨some "Easy", some []⟩⟩ ⟨some "Easy", some []⟩ "Easy"
    rfl rfl (by decide) rfl rfl
